import Mathlib

/-!
Verification of the StokCerdas ML-forecasting Python services
(`src/ml-forecasting/python/arima_service.py`, `xgboost_service.py`,
`prophet_service.py`) against their natural-language specification.

Shallow embedding conventions:
* Machine floats are modelled as rationals (`ℚ`); all comparisons and
  arithmetic in the embedded code are exact.
* Values coming out of the external statistical libraries (statsmodels,
  xgboost, prophet) are inputs of the embedded functions: the embedding
  models the orchestration code of the repository, with library outputs
  abstracted as parameters.
* Python operations that can raise are embedded with `Except`/`Option`;
  a per-element division is embedded as `safeDiv`, whose `none` result
  marks a division by a zero denominator.
-/

set_option linter.unusedVariables false

namespace StokCerdas

/-- A forecast point as emitted by `RealARIMAService.forecast`
(arima_service.py 259-275) and `RealXGBoostService.predict`
(xgboost_service.py 402-408): step (1-based), point forecast,
lower/upper bound, confidence level, optional per-step error tag. -/
structure ForecastPoint where
  step : Nat
  forecast : ℚ
  lower_bound : ℚ
  upper_bound : ℚ
  confidence_level : ℚ
  error : Option String
deriving DecidableEq, Repr

/-- The invariant claimed by the spec for every ForecastPoint:
`lower_bound ≤ forecast ≤ upper_bound` and all three values `≥ 0`. -/
def pointInvB (p : ForecastPoint) : Bool :=
  decide (0 ≤ p.lower_bound) && decide (0 ≤ p.forecast) && decide (0 ≤ p.upper_bound) &&
    decide (p.lower_bound ≤ p.forecast) && decide (p.forecast ≤ p.upper_bound)

/-! ## ARIMA forecast generator (arima_service.py 221-289) -/

/-- Outputs of `self.fitted_model.get_forecast(steps)` as seen by the
per-step extraction code of `RealARIMAService.forecast`:
`meanAt i` models `float(forecast_values.iloc[i])` on the raw predicted
mean (an `Except.error` models a raised per-step exception, e.g. an index
or type error); `ciAt i` models extraction of row `i` of the confidence
interval; `ciTyped` tells whether `conf_int` supports row extraction
(`hasattr(conf_int, "iloc")` or ndarray) — when false the code takes the
default-bounds branch. -/
structure ArimaLibOutput where
  meanAt : Nat → Except String ℚ
  ciAt : Nat → Except String (ℚ × ℚ)
  ciTyped : Bool

/-- The degraded point appended when a per-step extraction raises
(arima_service.py 266-275). -/
def degradedPoint (i : Nat) (cl : ℚ) (e : String) : ForecastPoint :=
  { step := i + 1, forecast := 0, lower_bound := 0, upper_bound := 0,
    confidence_level := cl, error := some e }

/-- One iteration of the forecast loop (arima_service.py 238-275).
`np.maximum(forecast_values, 0)` (line 235) is applied to the array
before extraction, hence the `max · 0` on the successfully extracted
mean; the confidence-interval rows are emitted unclamped. -/
def arimaStep (lib : ArimaLibOutput) (cl : ℚ) (i : Nat) : ForecastPoint :=
  match (Except.map (fun x => max x 0) (lib.meanAt i) : Except String ℚ) with
  | Except.error e => degradedPoint i cl e
  | Except.ok fv =>
    if lib.ciTyped then
      match lib.ciAt i with
      | Except.error e => degradedPoint i cl e
      | Except.ok lu =>
        { step := i + 1, forecast := fv, lower_bound := lu.1, upper_bound := lu.2,
          confidence_level := cl, error := none }
    else
      { step := i + 1, forecast := fv, lower_bound := fv * (8/10),
        upper_bound := fv * (12/10), confidence_level := cl, error := none }

/-- Result of `RealARIMAService.forecast` on the non-raising path
(arima_service.py 277-283). -/
structure ArimaForecastResult where
  success : Bool
  forecasts : List ForecastPoint
  forecast_horizon : Nat
  model_type : String
  confidence_level : ℚ
deriving DecidableEq, Repr

/-- `RealARIMAService.forecast` (arima_service.py 221-283), given the
fitted model's library outputs: the per-step loop over `range(steps)`
with per-step failure isolation, then the success wrapper. -/
def arimaForecast (lib : ArimaLibOutput) (steps : Nat) (cl : ℚ) : ArimaForecastResult :=
  { success := true
    forecasts := (List.range steps).map (arimaStep lib cl)
    forecast_horizon := steps
    model_type := "ARIMA"
    confidence_level := cl }

/-! ## XGBoost predict (xgboost_service.py 354-422) -/

/-- Calendar fields of the synthetic future date
`pd.Timestamp.now() + pd.Timedelta(days=step+1)` used by
`RealXGBoostService.predict`. -/
structure FutureDate where
  month : Nat
  dayofweek : Nat
  quarter : Nat
deriving DecidableEq, Repr

/-- Value placed at a feature position by the prediction-step feature
construction (xgboost_service.py 369-387): zeros, overwritten only for
the four calendar feature names present in `feature_names`. -/
def calendarFeature (fd : FutureDate) (n : String) : ℚ :=
  if n = "month" then (fd.month : ℚ)
  else if n = "dayofweek" then (fd.dayofweek : ℚ)
  else if n = "quarter" then (fd.quarter : ℚ)
  else if n = "is_weekend" then (if 5 ≤ fd.dayofweek then 1 else 0)
  else 0

/-- The per-step feature vector `base_features` after the fill loop
(xgboost_service.py 369-387). -/
def xgbFeatureVector (names : List String) (fd : FutureDate) : List ℚ :=
  names.map (calendarFeature fd)

/-- State of a fitted `RealXGBoostService` used by `predict`: the fitted
regressor (`self.model.predict` on one row), the fitted `StandardScaler`
transform (`self.scaler`), and `self.feature_names`. -/
structure XgbFitted where
  model : List ℚ → ℚ
  scaler : List ℚ → List ℚ
  feature_names : List String

/-- One step of `RealXGBoostService.predict` (xgboost_service.py
366-408): feature vector from the synthetic future date, raw model
prediction, and the ±1.96 × (15% of the prediction) heuristic band.
The emitted `forecast` is `float(prediction)` (line 404), not the
clamped `max(0, ...)` stored in the unused `predictions` list. -/
def xgbPredictStep (svc : XgbFitted) (futureDate : Nat → FutureDate) (step : Nat) :
    ForecastPoint :=
  let fd := futureDate step
  let p := svc.model (xgbFeatureVector svc.feature_names fd)
  let pstd := p * (15/100)
  { step := step + 1, forecast := p,
    lower_bound := max 0 (p - (196/100) * pstd),
    upper_bound := p + (196/100) * pstd,
    confidence_level := 95/100, error := none }

/-- Result envelope of `RealXGBoostService.predict` on the non-raising
path (xgboost_service.py 410-416). -/
structure XgbPredictResult where
  success : Bool
  forecasts : List ForecastPoint
  forecast_horizon : Nat
  model_type : String
deriving DecidableEq, Repr

/-- `RealXGBoostService.predict` (xgboost_service.py 354-416).
`external_features` is a parameter of the source function that its body
never reads; `futureDate` abstracts `pd.Timestamp.now() + (step+1) days`. -/
def xgbPredict (svc : XgbFitted) (forecast_steps : Nat)
    (external_features : Option (List (String × List ℚ)))
    (futureDate : Nat → FutureDate) : XgbPredictResult :=
  { success := true
    forecasts := (List.range forecast_steps).map (xgbPredictStep svc futureDate)
    forecast_horizon := forecast_steps
    model_type := "XGBoost" }

/-! ## Prophet forecast formatting (prophet_service.py 302-327) -/

/-- A forecast row (`yhat`, `yhat_lower`, `yhat_upper`) produced by the
prophet library for one future period. -/
structure ProphetRawRow where
  yhat : ℚ
  yhat_lower : ℚ
  yhat_upper : ℚ
deriving DecidableEq, Repr

/-- Numeric fields of a formatted prophet forecast point
(prophet_service.py 316-326). -/
structure ProphetPoint where
  step : Nat
  forecast : ℚ
  lower_bound : ℚ
  upper_bound : ℚ
deriving DecidableEq, Repr

/-- `RealProphetService.forecast` clamping and formatting
(prophet_service.py 308-326): all three columns are clamped with
`np.maximum(·, 0)`, steps are 1-based. -/
def prophetForecastPoints (rows : List ProphetRawRow) : List ProphetPoint :=
  rows.enum.map fun p =>
    { step := p.1 + 1, forecast := max p.2.yhat 0,
      lower_bound := max p.2.yhat_lower 0, upper_bound := max p.2.yhat_upper 0 }

/-! ## Data preparation (prepare_data / prepare_features base frame) -/

/-- Forward fill (`fillna(method=ffill)`) on a column with missing
values, carrying the last seen value forward. -/
def ffillAux : Option ℚ → List (Option ℚ) → List (Option ℚ)
  | _, [] => []
  | last, x :: xs =>
    match x with
    | some v => some v :: ffillAux (some v) xs
    | none => last :: ffillAux last xs

/-- `fillna(method=ffill)`. -/
def ffill (xs : List (Option ℚ)) : List (Option ℚ) := ffillAux none xs

/-- `fillna(method=bfill)`: forward fill on the reversed column. -/
def bfill (xs : List (Option ℚ)) : List (Option ℚ) := (ffill xs.reverse).reverse

/-- Synthetic daily dates of `RealXGBoostService.prepare_features`
(xgboost_service.py 60-63): `start = now - (n-1) days`, `n` daily
periods; timestamps modelled as integer day numbers. -/
def xgb_synthetic_dates (n : Nat) (now : Int) : List Int :=
  (List.range n).map fun (i : Nat) => now - ((n : Int) - 1) + (i : Int)

/-- Synthetic daily dates of `RealProphetService.prepare_data`
(prophet_service.py 42-43): same construction. -/
def prophet_synthetic_dates (n : Nat) (now : Int) : List Int :=
  (List.range n).map fun (i : Nat) => now - ((n : Int) - 1) + (i : Int)

/-- Row order used by `df.sort_values(ds)`: compare timestamps. -/
def rowLE (a b : Int × Option ℚ) : Prop := a.1 ≤ b.1

instance : DecidableRel rowLE := fun a b => inferInstanceAs (Decidable (a.1 ≤ b.1))

instance : IsTotal (Int × Option ℚ) rowLE := ⟨fun a b => le_total a.1 b.1⟩

instance : IsTrans (Int × Option ℚ) rowLE := ⟨fun _ _ _ h1 h2 => le_trans h1 h2⟩

/-- Base frame of `RealXGBoostService.prepare_features`
(xgboost_service.py 51-70): pair the given or synthesized dates with the
values, forward/backward fill the value column, then sort by date.
The source sorts with pandas' default (unstable) quicksort, so only the
ordering by key is specified; the model uses insertion sort.
No clamping of `y` occurs in this function. -/
def xgb_prepare_base (data_points : List (Option ℚ)) (dates : Option (List Int))
    (now : Int) : List (Int × Option ℚ) :=
  let ds := match dates with
    | some ds => ds
    | none => xgb_synthetic_dates data_points.length now
  let ys := bfill (ffill data_points)
  (ds.zip ys).insertionSort rowLE

/-- `RealProphetService.prepare_data` (prophet_service.py 28-59):
build the frame, forward/backward fill, enforce the minimum length of
10, then clamp values with `np.maximum(df[y], 0)` (missing values
propagate through `np.maximum`). No sort is performed. -/
def prophet_prepare (data_points : List (Option ℚ)) (dates : Option (List Int))
    (now : Int) : Except String (List (Int × Option ℚ)) :=
  let ds := match dates with
    | some ds => ds
    | none => prophet_synthetic_dates data_points.length now
  let ys := bfill (ffill data_points)
  if data_points.length < 10 then
    Except.error "Data preparation failed: Insufficient data points for Prophet (minimum 10 required)"
  else
    Except.ok (ds.zip (ys.map fun y => y.map fun v => max v 0))

/-- The index of the series built by `RealARIMAService.prepare_data`
(arima_service.py 56-61): a datetime index when dates are given,
otherwise the default sequential `RangeIndex` of `pd.Series`. -/
inductive ArimaIndex where
  | dates (ds : List Int)
  | range (n : Nat)
deriving DecidableEq, Repr

/-- Index selection of `RealARIMAService.prepare_data`
(arima_service.py 56-61). -/
def arima_prepare_data_index (n : Nat) (dates : Option (List Int)) : ArimaIndex :=
  match dates with
  | some ds => ArimaIndex.dates ds
  | none => ArimaIndex.range n

/-- Whether a prepared-series index is a date index. -/
def isDateIndex : ArimaIndex → Bool
  | ArimaIndex.dates _ => true
  | ArimaIndex.range _ => false

/-! ## MAPE (arima_service.py 342-359, xgboost_service.py 297-304,
prophet_service.py 236-248) -/

/-- Division instrumented for zero denominators: `none` marks that the
computation divided by zero. -/
def safeDiv (x y : ℚ) : Option ℚ := if y = 0 then none else some (x / y)

/-- Element-wise `(actual - predicted) / actual` over (actual,
predicted) pairs, `none` as soon as a division by a zero actual value
occurs. -/
def divRatios : List (ℚ × ℚ) → Option (List ℚ)
  | [] => some []
  | p :: rest =>
    match safeDiv (p.1 - p.2) p.1, divRatios rest with
    | some r, some rs => some (r :: rs)
    | _, _ => none

/-- The rows kept by the mask `actual != 0`. -/
def mapeFiltered (actual predicted : List ℚ) : List (ℚ × ℚ) :=
  (actual.zip predicted).filter fun p => decide (p.1 ≠ 0)

/-- `RealARIMAService.calculate_mape` (arima_service.py 342-359):
mask out zero actuals, return 100.0 when no rows remain, else
`mean(abs((a - p) / a)) * 100` over the masked rows. -/
def arima_calculate_mape (actual predicted : List ℚ) : Option ℚ :=
  let pairs := mapeFiltered actual predicted
  if pairs.length = 0 then some 100
  else
    match divRatios pairs with
    | none => none
    | some rs => some (((rs.map fun x => |x|).sum / (pairs.length : ℚ)) * 100)

/-- The nested `calculate_mape` of `RealXGBoostService.fit_xgboost_model`
(xgboost_service.py 297-301): identical computation. -/
def xgb_calculate_mape (actual predicted : List ℚ) : Option ℚ :=
  let pairs := mapeFiltered actual predicted
  if pairs.length = 0 then some 100
  else
    match divRatios pairs with
    | none => none
    | some rs => some (((rs.map fun x => |x|).sum / (pairs.length : ℚ)) * 100)

/-- The in-sample MAPE of
`RealProphetService.generate_model_diagnostics` (prophet_service.py
238-239): `np.mean(np.abs((df[y] - forecast[yhat]) / df[y])) * 100`
over every row, with no zero-actual mask. -/
def prophet_in_sample_mape (ys yhats : List ℚ) : Option ℚ :=
  match divRatios (ys.zip yhats) with
  | none => none
  | some rs => some (((rs.map fun x => |x|).sum / ((ys.zip yhats).length : ℚ)) * 100)

/-! ## ARIMA grid search (arima_service.py 98-181) -/

/-- ARIMA order triple (p, d, q). -/
abbrev ArimaOrder := Nat × Nat × Nat

/-- Seasonal order quadruple (P, D, Q, m). -/
abbrev SeasonalOrd := Nat × Nat × Nat × Nat

/-- One grid-search candidate: order plus optional seasonal order. -/
abbrev Candidate := ArimaOrder × Option SeasonalOrd

/-- The candidate grid iterated by `simple_arima_grid_search`
(arima_service.py 148-161): p in `[0,1,2]`, d in `[0,1]`, q in
`[0,1,2]`, seasonal orders `[(0,1,0,m), (1,1,1,m)]` when seasonal else
`[None]`, in loop-nest order p, d, q, seasonal. -/
def gridCandidates (seasonal : Bool) (m : Nat) : List Candidate :=
  ([0, 1, 2] : List Nat).flatMap fun p =>
    ([0, 1] : List Nat).flatMap fun d =>
      ([0, 1, 2] : List Nat).flatMap fun q =>
        (if seasonal then [some (0, 1, 0, m), some (1, 1, 1, m)]
          else ([none] : List (Option SeasonalOrd))).map fun s => ((p, d, q), s)

/-- `fitted_model.aic < best_aic`, where the initial `best_aic` is
`float(inf)` (modelled as `none`). -/
def aicBeats (a : ℚ) : Option ℚ → Bool
  | none => true
  | some b => decide (a < b)

/-- Loop state of the grid search: `best_aic` (`none` models the
initial infinity), `best_order`, `best_seasonal_order`
(arima_service.py 144-146). -/
structure GridState where
  best_aic : Option ℚ
  best_order : ArimaOrder
  best_seasonal_order : Option SeasonalOrd
deriving DecidableEq, Repr

/-- Body of the grid-search loop for one candidate (arima_service.py
162-172): a candidate whose fit raises (`fitAic c = none`) is skipped;
a fitted candidate replaces the state only when its AIC is strictly
lower. -/
def gsStep (fitAic : Candidate → Option ℚ) (st : GridState) (c : Candidate) : GridState :=
  match fitAic c with
  | none => st
  | some a => if aicBeats a st.best_aic then ⟨some a, c.1, c.2⟩ else st

/-- The grid-search loop (arima_service.py 158-172). -/
def gsRun (fitAic : Candidate → Option ℚ) : List Candidate → GridState → GridState
  | [], st => st
  | c :: rest, st => gsRun fitAic rest (gsStep fitAic st c)

/-- The mapping returned by the ARIMA configuration search.  `fallback`
records whether the mapping carries the key `fallback` set to true;
`simple_arima_grid_search` (arima_service.py 174-181) never includes
that key, while the exception branch of `auto_arima_selection`
(arima_service.py 128-138) sets it. -/
structure GridSearchResult where
  order : ArimaOrder
  seasonal_order : Option SeasonalOrd
  aic : Option ℚ
  fallback : Bool
deriving DecidableEq, Repr

/-- `RealARIMAService.simple_arima_grid_search` (arima_service.py
140-181), with the per-candidate `ARIMA(...).fit()` call abstracted as
`fitAic` (`none` = the fit raised).  `aic` is reported as `none` when
`best_aic` stayed infinite. -/
def simple_arima_grid_search (fitAic : Candidate → Option ℚ) (seasonal : Bool)
    (m : Nat) : GridSearchResult :=
  let st := gsRun fitAic (gridCandidates seasonal m) ⟨none, (1, 1, 1), none⟩
  { order := st.best_order, seasonal_order := st.best_seasonal_order,
    aic := st.best_aic, fallback := false }

/-- The fallback mapping of the exception branch of
`RealARIMAService.auto_arima_selection` (arima_service.py 128-138):
order (1,1,1) and `fallback=true`.  It is produced only when the
selection routine itself raises, which the grid search never does. -/
def auto_arima_fallback_result (e : String) : GridSearchResult :=
  { order := (1, 1, 1), seasonal_order := none, aic := none, fallback := true }

/-! ## XGBoost overfitting check (xgboost_service.py 339-342) -/

/-- The `overfitting_check` entry of the XGBoost diagnostics:
`train_val_mae_ratio = val_mae / train_mae if train_mae > 0 else 1.0`
and `is_overfitting = val_mae > train_mae * 1.5`. -/
def overfitting_check (train_mae val_mae : ℚ) : ℚ × Bool :=
  (if 0 < train_mae then val_mae / train_mae else 1,
   decide (train_mae * (3/2) < val_mae))

/-! ## ARIMA main flow with the shadowed seasonal_decomposition
attribute (arima_service.py 46-49, 362-460) -/

/-- A raised Python exception: type name and message. -/
structure PyError where
  ty : String
  msg : String
deriving DecidableEq, Repr

/-- The request parameters consumed by `main` of arima_service.py
(lines 374-380), with dates already parsed. -/
structure ArimaInput where
  data_points : List ℚ
  dates : Option (List Int)
  forecast_steps : Nat
  confidence_level : ℚ
  seasonal : Bool
  seasonal_period : Nat

/-- The response envelope printed by `main` of arima_service.py:
success flag, error message, error type (only the top-level handler at
lines 449-460 records `error_type`), and the forecasts block on
success. -/
structure Envelope where
  success : Bool
  error : Option String
  error_type : Option String
  forecasts : Option ArimaForecastResult
deriving DecidableEq, Repr

/-- The instance attribute `self.seasonal_decomposition` after
`RealARIMAService.__init__` (arima_service.py 46-49): it is set to
`None`, and by Python attribute resolution this instance attribute
shadows the class method of the same name, so the method body
(arima_service.py 291-323) is unreachable through the instance. -/
def initial_seasonal_decomposition_attr : Option (List ℚ → Nat → Unit) := none

/-- Calling `arima_service.seasonal_decomposition(...)` (arima_service.py
404-407): the attribute holds `None`, and calling `None` raises
`TypeError` (message apostrophes elided). -/
def arima_seasonal_decomposition_call (attr : Option (List ℚ → Nat → Unit))
    (ts : List ℚ) (period : Nat) : Except PyError Unit :=
  match attr with
  | none => Except.error ⟨"TypeError", "NoneType object is not callable"⟩
  | some f => Except.ok (f ts period)

/-- `main` of arima_service.py (lines 362-460) restricted to the
decisions the embedded claims need: the minimum-length validation
(383-390), the seasonal-decomposition call when `seasonal` is set
(401-407) whose raised `TypeError` is caught by the top-level handler
(449-460), the fit-failure branch (412-419, abstracted as
`fitOutcome`), and the success path calling `forecast` (421-447). -/
def arima_main (input : ArimaInput) (fitOutcome : Except String Unit)
    (lib : ArimaLibOutput) : Envelope :=
  if input.data_points.length < 10 then
    { success := false, error := some "Insufficient data points (minimum 10 required)",
      error_type := none, forecasts := none }
  else
    match (if input.seasonal then
        Except.map some (arima_seasonal_decomposition_call
          initial_seasonal_decomposition_attr input.data_points input.seasonal_period)
      else Except.ok none : Except PyError (Option Unit)) with
    | Except.error e =>
      { success := false, error := some e.msg, error_type := some e.ty, forecasts := none }
    | Except.ok _ =>
      match fitOutcome with
      | Except.error msg =>
        { success := false, error := some msg, error_type := none, forecasts := none }
      | Except.ok _ =>
        { success := true, error := none, error_type := none,
          forecasts := some (arimaForecast lib input.forecast_steps input.confidence_level) }

/-! ## Concrete fixtures used by witnesses and counterexamples -/

/-- Library outputs whose raw mean and confidence interval are all
negative at every step. -/
def libNeg : ArimaLibOutput :=
  { meanAt := fun _ => Except.ok (-5), ciAt := fun _ => Except.ok (-3, -1), ciTyped := true }

/-- Library outputs taking the default-bounds branch with mean 5. -/
def libDefaultBranch : ArimaLibOutput :=
  { meanAt := fun _ => Except.ok 5, ciAt := fun _ => Except.ok (4, 6), ciTyped := false }

/-- Library outputs whose second step raises on mean extraction. -/
def libStepFail : ArimaLibOutput :=
  { meanAt := fun i => if i = 0 then Except.ok 5 else Except.error "index out of bounds",
    ciAt := fun _ => Except.ok (4, 6), ciTyped := true }

/-- A fitted XGBoost service whose regressor always returns -10. -/
def svcNeg : XgbFitted :=
  { model := fun _ => -10, scaler := id, feature_names := ["month"] }

/-- A fitted XGBoost service whose regressor always returns 20. -/
def svcPos : XgbFitted :=
  { model := fun _ => 20, scaler := id, feature_names := ["month"] }

/-- A fixed synthetic future date. -/
def fd0 : Nat → FutureDate := fun _ => ⟨1, 0, 1⟩

/-- A fit function for the grid-search witness: only (0,0,0) and
(1,0,1) fit, with AICs 7 and 3. -/
def fitGrid0 : Candidate → Option ℚ :=
  fun c => if c.1 = ((0, 0, 0) : ArimaOrder) then some 7
    else if c.1 = ((1, 0, 1) : ArimaOrder) then some 3 else none

/-- A fit function where every candidate fails. -/
def fitNone : Candidate → Option ℚ := fun _ => none

/-- A concrete 10-point request with the seasonal flag set. -/
def seasonalInput : ArimaInput :=
  { data_points := [10, 12, 11, 13, 12, 14, 13, 15, 14, 16], dates := none,
    forecast_steps := 30, confidence_level := 95/100, seasonal := true,
    seasonal_period := 7 }

/-! # Theorems -/

/-! ## Grid-search lemmas -/

lemma aicBeats_some_true {a b : ℚ} : aicBeats a (some b) = true ↔ a < b := by
  simp [aicBeats]

lemma aicBeats_false {a : ℚ} {x : Option ℚ} :
    aicBeats a x = false ↔ ∃ b, x = some b ∧ b ≤ a := by
  cases x with
  | none => simp [aicBeats]
  | some b => simp [aicBeats, not_lt]

lemma gsRun_cons (fitAic : Candidate → Option ℚ) (c : Candidate) (rest : List Candidate)
    (st : GridState) :
    gsRun fitAic (c :: rest) st = gsRun fitAic rest (gsStep fitAic st c) := rfl

lemma gsRun_mono (fitAic : Candidate → Option ℚ) :
    ∀ (l : List Candidate) (st : GridState) (b : ℚ), st.best_aic = some b →
      ∃ b2, (gsRun fitAic l st).best_aic = some b2 ∧ b2 ≤ b := by
  intro l
  induction l with
  | nil => exact fun st b hb => ⟨b, hb, le_refl b⟩
  | cons c rest ih =>
    intro st b hb
    rw [gsRun_cons]
    cases hfc : fitAic c with
    | none =>
      have hst : gsStep fitAic st c = st := by simp [gsStep, hfc]
      rw [hst]; exact ih st b hb
    | some a =>
      cases hbt : aicBeats a st.best_aic with
      | true =>
        have hst : gsStep fitAic st c = ⟨some a, c.1, c.2⟩ := by simp [gsStep, hfc, hbt]
        rw [hst]
        have hab : a < b := by rw [hb] at hbt; exact aicBeats_some_true.mp hbt
        obtain ⟨b2, h1, h2⟩ := ih ⟨some a, c.1, c.2⟩ a rfl
        exact ⟨b2, h1, le_trans h2 (le_of_lt hab)⟩
      | false =>
        have hst : gsStep fitAic st c = st := by simp [gsStep, hfc, hbt]
        rw [hst]; exact ih st b hb

lemma gsRun_le (fitAic : Candidate → Option ℚ) :
    ∀ (l : List Candidate) (st : GridState) (c : Candidate) (a : ℚ),
      c ∈ l → fitAic c = some a →
      ∃ b2, (gsRun fitAic l st).best_aic = some b2 ∧ b2 ≤ a := by
  intro l
  induction l with
  | nil => intro st c a hc; exact absurd hc (List.not_mem_nil c)
  | cons x rest ih =>
    intro st c a hc ha
    rw [gsRun_cons]
    rcases List.mem_cons.mp hc with hceq | hcrest
    · subst hceq
      cases hbt : aicBeats a st.best_aic with
      | true =>
        have hst : gsStep fitAic st c = ⟨some a, c.1, c.2⟩ := by simp [gsStep, ha, hbt]
        rw [hst]
        exact gsRun_mono fitAic rest ⟨some a, c.1, c.2⟩ a rfl
      | false =>
        obtain ⟨b, hsb, hba⟩ := aicBeats_false.mp hbt
        have hst : gsStep fitAic st c = st := by simp [gsStep, ha, hbt]
        rw [hst]
        obtain ⟨b2, h1, h2⟩ := gsRun_mono fitAic rest st b hsb
        exact ⟨b2, h1, le_trans h2 hba⟩
    · exact ih (gsStep fitAic st x) c a hcrest ha

lemma gsRun_provenance (fitAic : Candidate → Option ℚ) :
    ∀ (l : List Candidate) (st : GridState),
      (gsRun fitAic l st = st
        ∧ ∀ c ∈ l, ∀ a, fitAic c = some a → aicBeats a st.best_aic = false)
      ∨ (∃ l1 c l2 a, l = l1 ++ c :: l2 ∧ fitAic c = some a
          ∧ (gsRun fitAic l st).best_aic = some a
          ∧ (gsRun fitAic l st).best_order = c.1
          ∧ (gsRun fitAic l st).best_seasonal_order = c.2
          ∧ aicBeats a st.best_aic = true
          ∧ ∀ c2 ∈ l1, ∀ a2, fitAic c2 = some a2 → a < a2) := by
  intro l
  induction l with
  | nil => exact fun st => Or.inl ⟨rfl, by simp⟩
  | cons c rest ih =>
    intro st
    cases hfc : fitAic c with
    | none =>
      have hst : gsStep fitAic st c = st := by simp [gsStep, hfc]
      have hrw : gsRun fitAic (c :: rest) st = gsRun fitAic rest st := by
        rw [gsRun_cons, hst]
      rcases ih st with ⟨he, hnb⟩ | ⟨l1, cw, l2, aw, hsplit, hfw, hb, ho, hs, hbt, hearly⟩
      · refine Or.inl ⟨by rw [hrw, he], ?_⟩
        intro x hx a ha
        rcases List.mem_cons.mp hx with hxe | hxr
        · subst hxe; rw [hfc] at ha; exact absurd ha (by simp)
        · exact hnb x hxr a ha
      · refine Or.inr ⟨c :: l1, cw, l2, aw, by rw [hsplit]; rfl, hfw, ?_, ?_, ?_, hbt, ?_⟩
        · rw [hrw]; exact hb
        · rw [hrw]; exact ho
        · rw [hrw]; exact hs
        · intro x hx a2 ha2
          rcases List.mem_cons.mp hx with hxe | hxr
          · subst hxe; rw [hfc] at ha2; exact absurd ha2 (by simp)
          · exact hearly x hxr a2 ha2
    | some a0 =>
      cases hbt0 : aicBeats a0 st.best_aic with
      | true =>
        have hst : gsStep fitAic st c = ⟨some a0, c.1, c.2⟩ := by simp [gsStep, hfc, hbt0]
        have hrw : gsRun fitAic (c :: rest) st
            = gsRun fitAic rest ⟨some a0, c.1, c.2⟩ := by rw [gsRun_cons, hst]
        rcases ih ⟨some a0, c.1, c.2⟩ with ⟨he, hnb⟩ |
          ⟨l1, cw, l2, aw, hsplit, hfw, hb, ho, hs, hbt, hearly⟩
        · refine Or.inr ⟨[], c, rest, a0, rfl, hfc, ?_, ?_, ?_, hbt0, by simp⟩
          · rw [hrw, he]
          · rw [hrw, he]
          · rw [hrw, he]
        · have haw : aw < a0 := by
            have : aicBeats aw (some a0) = true := hbt
            exact aicBeats_some_true.mp this
          refine Or.inr ⟨c :: l1, cw, l2, aw, by rw [hsplit]; rfl, hfw, ?_, ?_, ?_, ?_, ?_⟩
          · rw [hrw]; exact hb
          · rw [hrw]; exact ho
          · rw [hrw]; exact hs
          · cases hsb : st.best_aic with
            | none => rfl
            | some b =>
              rw [hsb] at hbt0
              have hb0 : a0 < b := aicBeats_some_true.mp hbt0
              exact aicBeats_some_true.mpr (lt_trans haw hb0)
          · intro x hx a2 ha2
            rcases List.mem_cons.mp hx with hxe | hxr
            · subst hxe; rw [hfc] at ha2
              have : a0 = a2 := by injection ha2
              rw [← this]; exact haw
            · exact hearly x hxr a2 ha2
      | false =>
        obtain ⟨b0, hsb0, hba0⟩ := aicBeats_false.mp hbt0
        have hst : gsStep fitAic st c = st := by simp [gsStep, hfc, hbt0]
        have hrw : gsRun fitAic (c :: rest) st = gsRun fitAic rest st := by
          rw [gsRun_cons, hst]
        rcases ih st with ⟨he, hnb⟩ | ⟨l1, cw, l2, aw, hsplit, hfw, hb, ho, hs, hbt, hearly⟩
        · refine Or.inl ⟨by rw [hrw, he], ?_⟩
          intro x hx a ha
          rcases List.mem_cons.mp hx with hxe | hxr
          · subst hxe
            have : a0 = a := by rw [hfc] at ha; injection ha
            rw [← this]; exact hbt0
          · exact hnb x hxr a ha
        · have haw : aw < a0 := by
            rw [hsb0] at hbt
            exact lt_of_lt_of_le (aicBeats_some_true.mp hbt) hba0
          refine Or.inr ⟨c :: l1, cw, l2, aw, by rw [hsplit]; rfl, hfw, ?_, ?_, ?_, hbt, ?_⟩
          · rw [hrw]; exact hb
          · rw [hrw]; exact ho
          · rw [hrw]; exact hs
          · intro x hx a2 ha2
            rcases List.mem_cons.mp hx with hxe | hxr
            · subst hxe
              have : a0 = a2 := by rw [hfc] at ha2; injection ha2
              rw [← this]; exact haw
            · exact hearly x hxr a2 ha2

lemma mem_gridCandidates (seasonal : Bool) (m : Nat) (c : Candidate) :
    c ∈ gridCandidates seasonal m ↔
      (c.1.1 ∈ ([0, 1, 2] : List Nat) ∧ c.1.2.1 ∈ ([0, 1] : List Nat)
        ∧ c.1.2.2 ∈ ([0, 1, 2] : List Nat)
        ∧ c.2 ∈ (if seasonal then [some (0, 1, 0, m), some (1, 1, 1, m)]
            else ([none] : List (Option SeasonalOrd)))) := by
  obtain ⟨⟨p, d, q⟩, s⟩ := c
  simp only [gridCandidates, List.mem_flatMap, List.mem_map]
  constructor
  · rintro ⟨p1, hp1, d1, hd1, q1, hq1, s1, hs1, heq⟩
    cases heq
    exact ⟨hp1, hd1, hq1, hs1⟩
  · rintro ⟨hp, hd, hq, hs⟩
    exact ⟨p, hp, d, hd, q, hq, s, hs, rfl⟩

lemma gsRun_all_none (fitAic : Candidate → Option ℚ) :
    ∀ (l : List Candidate) (st : GridState), (∀ c ∈ l, fitAic c = none) →
      gsRun fitAic l st = st := by
  intro l
  induction l with
  | nil => exact fun st _ => rfl
  | cons c rest ih =>
    intro st h
    rw [gsRun_cons]
    have hst : gsStep fitAic st c = st := by
      simp [gsStep, h c (List.mem_cons_self c rest)]
    rw [hst]
    exact ih st fun x hx => h x (List.mem_cons_of_mem c hx)

/-- C4: `simple_arima_grid_search` iterates the full grid
p ∈ {0,1,2}, d ∈ {0,1}, q ∈ {0,1,2} (times two seasonal-order
candidates when seasonal), skips candidates whose fit raises, and
returns the first-encountered configuration attaining the minimum AIC
among all successfully-fit candidates; it never returns a configuration
with higher AIC than some other successfully-fit candidate. -/
theorem C4_grid_search_first_min_aic (fitAic : Candidate → Option ℚ) (seasonal : Bool)
    (m : Nat) :
    (∀ c : Candidate, c ∈ gridCandidates seasonal m ↔
      (c.1.1 ∈ ([0, 1, 2] : List Nat) ∧ c.1.2.1 ∈ ([0, 1] : List Nat)
        ∧ c.1.2.2 ∈ ([0, 1, 2] : List Nat)
        ∧ c.2 ∈ (if seasonal then [some (0, 1, 0, m), some (1, 1, 1, m)]
            else ([none] : List (Option SeasonalOrd)))))
    ∧ (∀ (st : GridState) (c : Candidate), fitAic c = none → gsStep fitAic st c = st)
    ∧ (∀ c ∈ gridCandidates seasonal m, ∀ a, fitAic c = some a →
        ∃ b, (simple_arima_grid_search fitAic seasonal m).aic = some b ∧ b ≤ a)
    ∧ ((∃ c ∈ gridCandidates seasonal m, (fitAic c).isSome) →
        ∃ l1 c l2 a, gridCandidates seasonal m = l1 ++ c :: l2 ∧ fitAic c = some a
          ∧ (simple_arima_grid_search fitAic seasonal m).aic = some a
          ∧ (simple_arima_grid_search fitAic seasonal m).order = c.1
          ∧ (simple_arima_grid_search fitAic seasonal m).seasonal_order = c.2
          ∧ ∀ c2 ∈ l1, ∀ a2, fitAic c2 = some a2 → a < a2) := by
  refine ⟨mem_gridCandidates seasonal m, ?_, ?_, ?_⟩
  · intro st c hc; simp [gsStep, hc]
  · intro c hc a ha
    exact gsRun_le fitAic (gridCandidates seasonal m) ⟨none, (1, 1, 1), none⟩ c a hc ha
  · rintro ⟨c, hc, hsome⟩
    obtain ⟨a, ha⟩ := Option.isSome_iff_exists.mp hsome
    rcases gsRun_provenance fitAic (gridCandidates seasonal m) ⟨none, (1, 1, 1), none⟩ with
      ⟨_, hnb⟩ | ⟨l1, cw, l2, aw, hsplit, hfw, hb, ho, hs, _, hearly⟩
    · have := hnb c hc a ha
      simp [aicBeats] at this
    · exact ⟨l1, cw, l2, aw, hsplit, hfw, hb, ho, hs, hearly⟩

/-- Witness for C4 at a concrete fit function: candidate (1,0,1) fits
with AIC 3, and the search result's AIC is at most 3. -/
theorem C4_witness :
    ((((1, 0, 1), none) : Candidate) ∈ gridCandidates false 1
      ∧ fitGrid0 (((1, 0, 1), none) : Candidate) = some 3)
    ∧ ∃ b, (simple_arima_grid_search fitGrid0 false 1).aic = some b ∧ b ≤ 3 :=
  ⟨⟨by decide, by decide⟩,
    (C4_grid_search_first_min_aic fitGrid0 false 1).2.2.1 (((1, 0, 1), none) : Candidate)
      (by decide) 3 (by decide)⟩

/-- C5 counterexample: with every candidate failing to fit, the
grid-search result has order (1,1,1) but carries no `fallback=true`
flag, contrary to the claim. -/
theorem C5_counterexample :
    ((gridCandidates false 1).all fun c => (fitNone c).isNone) = true
    ∧ (simple_arima_grid_search fitNone false 1).order = (1, 1, 1)
    ∧ (simple_arima_grid_search fitNone false 1).fallback = false := by
  refine ⟨by decide, by decide, by decide⟩

/-- C5 (amended): when every grid candidate fails to fit, the search
returns order (1,1,1) with a null AIC and no fallback flag; the
`fallback=true` flag is produced only by the exception branch of
`auto_arima_selection`, which the grid search itself never triggers. -/
theorem C5_all_fail_order111_no_flag (fitAic : Candidate → Option ℚ) (seasonal : Bool)
    (m : Nat) (h : ∀ c ∈ gridCandidates seasonal m, fitAic c = none) :
    simple_arima_grid_search fitAic seasonal m
      = { order := (1, 1, 1), seasonal_order := none, aic := none, fallback := false }
    ∧ ∀ e, auto_arima_fallback_result e
      = { order := (1, 1, 1), seasonal_order := none, aic := none, fallback := true } := by
  constructor
  · unfold simple_arima_grid_search
    rw [gsRun_all_none fitAic (gridCandidates seasonal m) ⟨none, (1, 1, 1), none⟩ h]
  · intro e; rfl

/-- Witness for C5 at the all-failing fit function. -/
theorem C5_witness :
    ((gridCandidates false 1).all fun c => (fitNone c).isNone) = true
    ∧ simple_arima_grid_search fitNone false 1
        = { order := (1, 1, 1), seasonal_order := none, aic := none, fallback := false } :=
  ⟨by decide, (C5_all_fail_order111_no_flag fitNone false 1 fun _ _ => rfl).1⟩

/-! ## Forecast generator -/

lemma arimaForecast_getElem (lib : ArimaLibOutput) (cl : ℚ) (steps i : Nat)
    (hi : i < steps) :
    (arimaForecast lib steps cl).forecasts[i]? = some (arimaStep lib cl i) := by
  simp [arimaForecast, List.getElem?_map, List.getElem?_range, hi]

/-- C6: in `RealARIMAService.forecast`, for every step `1..horizon`, if
extraction of that step's point or bounds raises, a zero-valued
ForecastPoint tagged with that step's error message is emitted, the
remaining steps are still produced (one point per step of the horizon),
and the overall forecast result still reports success. -/
theorem C6_per_step_failure_isolation (lib : ArimaLibOutput) (cl : ℚ) (steps : Nat) :
    (arimaForecast lib steps cl).success = true
    ∧ (arimaForecast lib steps cl).forecasts.length = steps
    ∧ (∀ i, i < steps →
        (arimaForecast lib steps cl).forecasts[i]? = some (arimaStep lib cl i))
    ∧ (∀ i e, i < steps →
        (lib.meanAt i = Except.error e
          ∨ (lib.ciTyped = true ∧ lib.ciAt i = Except.error e
              ∧ ∃ v, lib.meanAt i = Except.ok v)) →
        (arimaForecast lib steps cl).forecasts[i]? = some (degradedPoint i cl e)) := by
  refine ⟨rfl, by simp [arimaForecast], fun i hi => arimaForecast_getElem lib cl steps i hi, ?_⟩
  intro i e hi hfail
  rw [arimaForecast_getElem lib cl steps i hi]
  rcases hfail with hmean | ⟨hct, hci, v, hmean⟩
  · simp [arimaStep, hmean, Except.map]
  · simp [arimaStep, hmean, Except.map, hct, hci]

/-- Witness for C6: a library output whose step-2 mean extraction
raises; the emitted point at index 1 is the tagged zero point. -/
theorem C6_witness :
    (1 < 2 ∧ libStepFail.meanAt 1 = Except.error "index out of bounds")
    ∧ (arimaForecast libStepFail 2 (95/100)).forecasts[1]?
        = some (degradedPoint 1 (95/100) "index out of bounds") :=
  ⟨⟨by norm_num, rfl⟩,
    (C6_per_step_failure_isolation libStepFail (95/100) 2).2.2.2 1 "index out of bounds"
      (by norm_num) (Or.inl rfl)⟩

/-- C1 counterexample: the ARIMA backend emits the library confidence
interval unclamped (here lower bound -3 < 0 and upper bound -1 below
the clamped forecast 0), and the tree backend emits the raw model
prediction as `forecast` (here -10 < 0); both violate the claimed
ForecastPoint invariant. -/
theorem C1_counterexample :
    ((arimaForecast libNeg 1 (95/100)).forecasts.all pointInvB) = false
    ∧ ((xgbPredict svcNeg 1 none fd0).forecasts.all pointInvB) = false := by
  constructor
  · decide
  · simp only [xgbPredict, xgbPredictStep, svcNeg, fd0, xgbFeatureVector, List.range_succ,
      List.range_zero, List.nil_append, List.map_cons, List.map_nil, List.all_cons,
      List.all_nil, pointInvB]
    norm_num

/-- C1 (amended): per backend, the guarantees actually enforced on
emitted ForecastPoints are: ARIMA clamps the point forecast to ≥ 0
(interval bounds pass through unclamped), and on the default-bounds
branch (untyped confidence interval) the full invariant
0 ≤ lower ≤ forecast ≤ upper holds; the tree backend clamps only the
lower bound to ≥ 0; the decomposable backend clamps all three values to
≥ 0 and preserves lower ≤ forecast ≤ upper whenever the library's raw
triple is ordered. -/
theorem C1_per_backend_bounds (lib : ArimaLibOutput) (cl : ℚ) (steps : Nat)
    (svc : XgbFitted) (ef : Option (List (String × List ℚ))) (fd : Nat → FutureDate)
    (rows : List ProphetRawRow) :
    (∀ pt ∈ (arimaForecast lib steps cl).forecasts, 0 ≤ pt.forecast)
    ∧ (lib.ciTyped = false →
        ∀ pt ∈ (arimaForecast lib steps cl).forecasts, pointInvB pt = true)
    ∧ (∀ pt ∈ (xgbPredict svc steps ef fd).forecasts, 0 ≤ pt.lower_bound)
    ∧ (∀ pt ∈ prophetForecastPoints rows,
        0 ≤ pt.forecast ∧ 0 ≤ pt.lower_bound ∧ 0 ≤ pt.upper_bound)
    ∧ ((∀ r ∈ rows, r.yhat_lower ≤ r.yhat ∧ r.yhat ≤ r.yhat_upper) →
        ∀ pt ∈ prophetForecastPoints rows,
          pt.lower_bound ≤ pt.forecast ∧ pt.forecast ≤ pt.upper_bound) := by
  refine ⟨?_, ?_, ?_, ?_, ?_⟩
  · intro pt hpt
    obtain ⟨i, _, rfl⟩ := List.mem_map.mp hpt
    cases hm : lib.meanAt i with
    | error e => simp [arimaStep, hm, Except.map, degradedPoint]
    | ok v =>
      cases hct : lib.ciTyped with
      | true =>
        cases hci : lib.ciAt i with
        | error e => simp [arimaStep, hm, Except.map, hct, hci, degradedPoint]
        | ok lu => simp [arimaStep, hm, Except.map, hct, hci, le_max_right]
      | false => simp [arimaStep, hm, Except.map, hct, le_max_right]
  · intro hct pt hpt
    obtain ⟨i, _, rfl⟩ := List.mem_map.mp hpt
    cases hm : lib.meanAt i with
    | error e => simp [arimaStep, hm, Except.map, degradedPoint, pointInvB]
    | ok v =>
      have hv : (0 : ℚ) ≤ max v 0 := le_max_right v 0
      simp only [arimaStep, hm, Except.map, hct, Bool.false_eq_true, if_false, pointInvB]
      simp only [Bool.and_eq_true, decide_eq_true_eq]
      refine ⟨⟨⟨⟨by positivity, hv⟩, by positivity⟩, by nlinarith⟩, by nlinarith⟩
  · intro pt hpt
    obtain ⟨i, _, rfl⟩ := List.mem_map.mp hpt
    simp [xgbPredictStep, le_max_left]
  · intro pt hpt
    obtain ⟨r, _, rfl⟩ := List.mem_map.mp hpt
    exact ⟨le_max_right _ 0, le_max_right _ 0, le_max_right _ 0⟩
  · intro hord pt hpt
    obtain ⟨r, hr, rfl⟩ := List.mem_map.mp hpt
    have hmem : r.2 ∈ rows := by
      have := List.mem_map_of_mem Prod.snd hr
      rwa [List.enum_map_snd] at this
    obtain ⟨h1, h2⟩ := hord r.2 hmem
    exact ⟨max_le_max h1 (le_refl 0), max_le_max h2 (le_refl 0)⟩

/-- Witness for C1 on the ARIMA default-bounds branch: the emitted
point satisfies the full invariant. -/
theorem C1_witness :
    (libDefaultBranch.ciTyped = false
      ∧ arimaStep libDefaultBranch (95/100) 0
          ∈ (arimaForecast libDefaultBranch 1 (95/100)).forecasts)
    ∧ pointInvB (arimaStep libDefaultBranch (95/100) 0) = true :=
  ⟨⟨rfl, by simp [arimaForecast]⟩,
    (C1_per_backend_bounds libDefaultBranch (95/100) 1 svcPos none fd0 []).2.1 rfl
      (arimaStep libDefaultBranch (95/100) 0) (by simp [arimaForecast])⟩

/-! ## Data preparation -/

/-- C2 counterexample: the tree backend's prepared base frame keeps the
negative input value -5, so `prepare_features` does not clamp values to
non-negative. -/
theorem C2_counterexample :
    ((xgb_prepare_base [some (-5), some 2] (some [0, 1]) 0).any fun r =>
      decide (r.2.getD 0 < 0)) = true := by decide

/-- C2 (amended): the tree-backend data-preparation step sorts rows by
timestamp before any feature derivation, but performs no clamping of
values; the non-negativity clamp is applied by the decomposable
backend's `prepare_data` instead. -/
theorem C2_sorts_but_does_not_clamp (data_points : List (Option ℚ))
    (dates : Option (List Int)) (now : Int) :
    List.Sorted rowLE (xgb_prepare_base data_points dates now)
    ∧ (∀ res, prophet_prepare data_points dates now = Except.ok res →
        ∀ r ∈ res, ∀ v, r.2 = some v → 0 ≤ v) := by
  constructor
  · exact List.sorted_insertionSort rowLE _
  · intro res hres r hr v hv
    unfold prophet_prepare at hres
    by_cases hlen : data_points.length < 10
    · simp [hlen] at hres
    · simp only [hlen, if_false] at hres
      obtain rfl : res = _ := (Except.ok.injEq _ _).mp hres.symm
      obtain ⟨x, y⟩ := r
      have hy := (List.of_mem_zip hr).2
      obtain ⟨w, _, hw⟩ := List.mem_map.mp hy
      simp only at hv
      subst hv
      cases w with
      | none => simp at hw
      | some u =>
        have : some (max u 0) = some v := by simpa using hw
        have huv : max u 0 = v := by injection this
        rw [← huv]
        exact le_max_right u 0

/-- Witness for C2's prophet conjunct at a concrete all-negative
10-point input: the prepared value 0 (clamped from -3) is ≥ 0. -/
theorem C2_witness :
    (prophet_prepare (List.replicate 10 (some (-3))) none 0
      = Except.ok ((prophet_synthetic_dates 10 0).zip (List.replicate 10 (some (0 : ℚ)))))
    ∧ (((-9 : Int), some (0 : ℚ))
        ∈ (prophet_synthetic_dates 10 0).zip (List.replicate 10 (some (0 : ℚ))))
    ∧ (0 : ℚ) ≤ 0 := by
  have h : prophet_prepare (List.replicate 10 (some (-3))) none 0
      = Except.ok ((prophet_synthetic_dates 10 0).zip (List.replicate 10 (some (0 : ℚ)))) := by
    rfl
  exact ⟨h, by decide,
    (C2_sorts_but_does_not_clamp (List.replicate 10 (some (-3))) none 0).2
      ((prophet_synthetic_dates 10 0).zip (List.replicate 10 (some (0 : ℚ))))
      h ((-9 : Int), some (0 : ℚ)) (by decide) 0 rfl⟩

/-! ## MAPE -/

lemma divRatios_some_of_nonzero :
    ∀ l : List (ℚ × ℚ), (∀ p ∈ l, p.1 ≠ 0) → ∃ rs, divRatios l = some rs := by
  intro l
  induction l with
  | nil => exact fun _ => ⟨[], rfl⟩
  | cons p rest ih =>
    intro h
    obtain ⟨rs, hrs⟩ := ih fun x hx => h x (List.mem_cons_of_mem p hx)
    have hp : p.1 ≠ 0 := h p (List.mem_cons_self p rest)
    refine ⟨((p.1 - p.2) / p.1) :: rs, ?_⟩
    simp [divRatios, safeDiv, hp, hrs]

lemma divRatios_none_of_zero :
    ∀ l : List (ℚ × ℚ), (∃ p ∈ l, p.1 = 0) → divRatios l = none := by
  intro l
  induction l with
  | nil => rintro ⟨p, hp, _⟩; exact absurd hp (List.not_mem_nil p)
  | cons q rest ih =>
    rintro ⟨p, hp, hz⟩
    rcases List.mem_cons.mp hp with rfl | hrest
    · simp [divRatios, safeDiv, hz]
    · rw [show divRatios (q :: rest)
          = (match safeDiv (q.1 - q.2) q.1, divRatios rest with
            | some r, some rs => some (r :: rs)
            | _, _ => none) from rfl, ih ⟨p, hrest, hz⟩]
      cases safeDiv (q.1 - q.2) q.1 <;> rfl

/-- C3 counterexample: the decomposable backend's in-sample MAPE is
computed over a row whose actual value is zero, and the embedded
computation records a division by a zero actual value (`none`). -/
theorem C3_counterexample :
    (([(0 : ℚ), 2].zip [(1 : ℚ), 1]).any fun p => decide (p.1 = 0)) = true
    ∧ prophet_in_sample_mape [0, 2] [1, 1] = none :=
  ⟨by decide, rfl⟩

/-- C3 (amended): the autoregressive and tree backends compute MAPE by
excluding zero-actual rows from the ratio and return 100.0 when no
comparable rows exist, and those two computations never divide by a
zero actual value; the decomposable backend's in-sample MAPE branch,
however, divides by every actual value unmasked, so it divides by zero
whenever some actual value is zero. -/
theorem C3_mape_zero_guard (actual predicted ys yhats : List ℚ) :
    (∃ mv, arima_calculate_mape actual predicted = some mv)
    ∧ (∃ mv, xgb_calculate_mape actual predicted = some mv)
    ∧ (mapeFiltered actual predicted = [] →
        arima_calculate_mape actual predicted = some 100
        ∧ xgb_calculate_mape actual predicted = some 100)
    ∧ ((∃ p ∈ ys.zip yhats, p.1 = 0) → prophet_in_sample_mape ys yhats = none) := by
  have hnz : ∀ p ∈ mapeFiltered actual predicted, p.1 ≠ 0 := by
    intro p hp
    have := (List.mem_filter.mp hp).2
    exact of_decide_eq_true this
  refine ⟨?_, ?_, ?_, ?_⟩
  · unfold arima_calculate_mape
    by_cases hlen : (mapeFiltered actual predicted).length = 0
    · exact ⟨100, by simp [hlen]⟩
    · obtain ⟨rs, hrs⟩ := divRatios_some_of_nonzero _ hnz
      refine ⟨((rs.map fun x => |x|).sum / ((mapeFiltered actual predicted).length : ℚ)) * 100, ?_⟩
      simp [hlen, hrs]
  · unfold xgb_calculate_mape
    by_cases hlen : (mapeFiltered actual predicted).length = 0
    · exact ⟨100, by simp [hlen]⟩
    · obtain ⟨rs, hrs⟩ := divRatios_some_of_nonzero _ hnz
      refine ⟨((rs.map fun x => |x|).sum / ((mapeFiltered actual predicted).length : ℚ)) * 100, ?_⟩
      simp [hlen, hrs]
  · intro hempty
    constructor <;> simp [arima_calculate_mape, xgb_calculate_mape, hempty]
  · intro hz
    unfold prophet_in_sample_mape
    rw [divRatios_none_of_zero _ hz]

/-- Witness for C3: all-zero actuals give MAPE 100.0 in the
autoregressive backend's computation. -/
theorem C3_witness :
    (mapeFiltered [0, 0] [1, 2] = [])
    ∧ arima_calculate_mape [0, 0] [1, 2] = some 100 :=
  ⟨by decide, ((C3_mape_zero_guard [0, 0] [1, 2] [] []).2.2.1 (by decide)).1⟩

/-! ## Shadowed seasonal_decomposition attribute -/

/-- C7: for every invocation of the autoregressive backend with
`seasonal=true` and enough data points, the seasonal-decomposition call
raises a `TypeError` (the instance attribute `seasonal_decomposition`,
initialized to `None` in `__init__`, shadows the method of the same
name, so the attribute is not callable), and the invocation returns the
top-level failure envelope instead of a successful forecast. -/
theorem C7_seasonal_attr_shadows_method (input : ArimaInput)
    (fitOutcome : Except String Unit) (lib : ArimaLibOutput)
    (hs : input.seasonal = true) (hn : 10 ≤ input.data_points.length) :
    arima_main input fitOutcome lib
      = { success := false, error := some "NoneType object is not callable",
          error_type := some "TypeError", forecasts := none } := by
  unfold arima_main
  rw [if_neg (by omega)]
  simp [hs, arima_seasonal_decomposition_call, initial_seasonal_decomposition_attr,
    Except.map]

/-- Witness for C7 at a concrete seasonal 10-point request. -/
theorem C7_witness :
    (seasonalInput.seasonal = true ∧ 10 ≤ seasonalInput.data_points.length)
    ∧ arima_main seasonalInput (Except.ok ()) libDefaultBranch
        = { success := false, error := some "NoneType object is not callable",
            error_type := some "TypeError", forecasts := none } :=
  ⟨⟨rfl, by decide⟩,
    C7_seasonal_attr_shadows_method seasonalInput (Except.ok ()) libDefaultBranch rfl
      (by decide)⟩

/-! ## Synthetic date index -/

/-- C8 counterexample: with absent timestamps, the autoregressive
backend's prepared series uses the sequential `RangeIndex`, not a
synthesized daily date sequence. -/
theorem C8_counterexample :
    isDateIndex (arima_prepare_data_index 10 none) = false := rfl

/-- C8 (amended): when timestamps are absent, the decomposable and tree
backends synthesize a daily date sequence ending at the current date
(element i is now - (n-1) + i, and the last element is now); the
autoregressive backend instead indexes the prepared series by a
sequential integer range with no dates. -/
theorem C8_synthetic_dates_end_at_now (n : Nat) (now : Int) (i : Nat)
    (hn : 0 < n) (hi : i < n) :
    (xgb_synthetic_dates n now)[i]? = some (now - ((n : Int) - 1) + i)
    ∧ (prophet_synthetic_dates n now)[i]? = some (now - ((n : Int) - 1) + i)
    ∧ (xgb_synthetic_dates n now)[n - 1]? = some now
    ∧ (prophet_synthetic_dates n now)[n - 1]? = some now
    ∧ arima_prepare_data_index n none = ArimaIndex.range n := by
  have hlast : n - 1 < n := by omega
  have hcast : ((n - 1 : Nat) : Int) = (n : Int) - 1 := by omega
  have hval : now - ((n : Int) - 1) + ((n - 1 : Nat) : Int) = now := by omega
  refine ⟨?_, ?_, ?_, ?_, rfl⟩
  · show ((List.range n).map fun (j : Nat) => now - ((n : Int) - 1) + (j : Int))[i]? = _
    rw [List.getElem?_map, List.getElem?_range hi]
    rfl
  · show ((List.range n).map fun (j : Nat) => now - ((n : Int) - 1) + (j : Int))[i]? = _
    rw [List.getElem?_map, List.getElem?_range hi]
    rfl
  · show ((List.range n).map fun (j : Nat) => now - ((n : Int) - 1) + (j : Int))[n - 1]? = _
    rw [List.getElem?_map, List.getElem?_range hlast]
    show some (now - ((n : Int) - 1) + ((n - 1 : Nat) : Int)) = some now
    rw [hval]
  · show ((List.range n).map fun (j : Nat) => now - ((n : Int) - 1) + (j : Int))[n - 1]? = _
    rw [List.getElem?_map, List.getElem?_range hlast]
    show some (now - ((n : Int) - 1) + ((n - 1 : Nat) : Int)) = some now
    rw [hval]

/-- Witness for C8 at n = 10, now = 0: the synthesized sequence ends at
the current date. -/
theorem C8_witness :
    ((0 : Nat) < 10 ∧ (0 : Nat) < 10)
    ∧ (xgb_synthetic_dates 10 0)[10 - 1]? = some 0 :=
  ⟨⟨by decide, by decide⟩,
    (C8_synthetic_dates_end_at_now 10 0 0 (by decide) (by decide)).2.2.1⟩

/-! ## Overfitting check -/

/-- C9 counterexample: with training MAE 0 and validation MAE 1, the
reported ratio is 1.0 while `is_overfitting` is true, so
`is_overfitting` is not equivalent to the reported ratio exceeding
1.5, and the reported signal is not validation-MAE / training-MAE. -/
theorem C9_counterexample :
    (overfitting_check 0 1).2 = true
    ∧ ¬((3 / 2 : ℚ) < (overfitting_check 0 1).1) := by
  constructor
  · norm_num [overfitting_check]
  · norm_num [overfitting_check]

/-- C9 (amended): when training MAE is positive, the overfitting
signal equals validation-MAE / training-MAE and `is_overfitting` holds
exactly when that ratio exceeds 1.5; when training MAE is zero, the
signal is reported as 1.0 and `is_overfitting` holds exactly when
validation MAE is positive. -/
theorem C9_overfitting_ratio (t v : ℚ) :
    (0 < t →
      (overfitting_check t v).1 = v / t
      ∧ ((overfitting_check t v).2 = true ↔ (3 / 2 : ℚ) < (overfitting_check t v).1))
    ∧ (t = 0 →
      (overfitting_check t v).1 = 1
      ∧ ((overfitting_check t v).2 = true ↔ 0 < v)) := by
  constructor
  · intro ht
    have hratio : (overfitting_check t v).1 = v / t := by simp [overfitting_check, ht]
    refine ⟨hratio, ?_⟩
    rw [hratio]
    simp only [overfitting_check, decide_eq_true_eq]
    rw [lt_div_iff₀ ht]
    constructor
    · intro h; linarith
    · intro h; linarith
  · intro ht
    subst ht
    constructor
    · simp [overfitting_check]
    · simp [overfitting_check]

/-- Witness for C9 at training MAE 2, validation MAE 4. -/
theorem C9_witness :
    ((0 : ℚ) < 2)
    ∧ ((overfitting_check 2 4).1 = 4 / 2
      ∧ ((overfitting_check 2 4).2 = true ↔ (3 / 2 : ℚ) < (overfitting_check 2 4).1)) :=
  ⟨by norm_num, (C9_overfitting_ratio 2 4).1 (by norm_num)⟩

/-! ## XGBoost predict noninterference -/

/-- C10: for every fitted tree-backend model, every forecast horizon,
and any two values of the `external_features` argument,
`RealXGBoostService.predict` returns identical results; the per-step
feature vector is zero except for the calendar fields (month,
day-of-week, quarter, weekend flag) of the synthetic future date; and
the fitted StandardScaler is never applied (predictions do not depend
on the scaler state). -/
theorem C10_predict_ignores_externals (svc : XgbFitted) (steps : Nat)
    (ef1 ef2 : Option (List (String × List ℚ))) (fd : Nat → FutureDate)
    (model : List ℚ → ℚ) (sc1 sc2 : List ℚ → List ℚ) (names : List String) :
    (xgbPredict svc steps ef1 fd = xgbPredict svc steps ef2 fd)
    ∧ (xgbPredict ⟨model, sc1, names⟩ steps ef1 fd
        = xgbPredict ⟨model, sc2, names⟩ steps ef1 fd)
    ∧ (∀ fp : FutureDate, ∀ nm ∈ names,
        nm ∉ (["month", "dayofweek", "quarter", "is_weekend"] : List String) →
        calendarFeature fp nm = 0)
    ∧ (∀ fp : FutureDate,
        xgbFeatureVector names fp = names.map (calendarFeature fp)
        ∧ calendarFeature fp "month" = (fp.month : ℚ)
        ∧ calendarFeature fp "dayofweek" = (fp.dayofweek : ℚ)
        ∧ calendarFeature fp "quarter" = (fp.quarter : ℚ)
        ∧ calendarFeature fp "is_weekend" = (if 5 ≤ fp.dayofweek then (1 : ℚ) else 0)) := by
  refine ⟨rfl, rfl, ?_, ?_⟩
  · intro fp nm _ hnot
    simp only [List.mem_cons, List.mem_singleton, not_or] at hnot
    obtain ⟨h1, h2, h3, h4⟩ := hnot
    simp [calendarFeature, h1, h2, h3, h4]
  · intro fp
    refine ⟨rfl, ?_, ?_, ?_, ?_⟩ <;> simp [calendarFeature]

/-- Witness for C10: the non-calendar feature name lag_1 contributes a
zero entry to the prediction feature vector. -/
theorem C10_witness :
    ("lag_1" ∈ (["month", "lag_1"] : List String)
      ∧ "lag_1" ∉ (["month", "dayofweek", "quarter", "is_weekend"] : List String))
    ∧ calendarFeature ⟨1, 0, 1⟩ "lag_1" = 0 :=
  ⟨⟨by decide, by decide⟩,
    (C10_predict_ignores_externals svcPos 1 none none fd0 (fun _ => 0) id id
      ["month", "lag_1"]).2.2.1 ⟨1, 0, 1⟩ "lag_1" (by decide) (by decide)⟩

end StokCerdas
